import Mathlib

/-!
Verification of the Zen-Slice arcade core against its natural-language
specification.  The simulation code (`GameCanvas`: `checkCollisions`,
`update`, `startGame`, `endGame`, the per-frame dispatch) and the feedback
service (`generateSenseiFeedback`) are embedded shallowly below.

Numeric conventions of the embedding:
* JavaScript numbers are modelled as rationals (`ℚ`).  All comparisons the
  source performs on a `Math.hypot` value `d` against a non-negative bound
  `b` are carried out on squares (`d*d` against `b*b`), which is equivalent
  over the reals and keeps the definitions executable; the connection to
  the genuine Euclidean distance is proved where a claim asks for it.
* Calls to `Math.random`, `Math.atan2`, `Math.cos`, `Math.sin`,
  `Math.sqrt`, `Math.pow`, `Math.PI` and random id strings are modelled by
  an explicit `Oracle` of uninterpreted functions; every theorem holds for
  an arbitrary oracle unless it instantiates one.
* `Date.now()` / `performance.now()` readings within one tick are modelled
  by a single `now : ℤ` (milliseconds) parameter and a `dt : ℚ` (seconds)
  parameter, exactly as the tick loop samples them.
-/

namespace ZenSlice

/-! ### Constants (constants.ts) -/

def FRUIT_RADIUS : ℚ := 35

def SLICE_LIFETIME : ℤ := 250

structure DifficultyConfig where
  gravity : ℚ
  minSpeed : ℚ
  maxSpeed : ℚ
  spawnRate : ℚ
  bombChance : ℚ
deriving DecidableEq

def INITIAL_DIFFICULTY : DifficultyConfig :=
  { gravity := 0.15, minSpeed := 14, maxSpeed := 19, spawnRate := 1400, bombChance := 0.1 }

def HARD_DIFFICULTY : DifficultyConfig :=
  { gravity := 0.22, minSpeed := 18, maxSpeed := 24, spawnRate := 900, bombChance := 0.2 }

/-- The `FruitType` string enum of types.ts, as a domain enum (the emoji
glyph itself plays no role in the simulation logic). -/
inductive FruitType where
  | APPLE | PEAR | ORANGE | LEMON | BANANA | WATERMELON | GRAPE | STRAWBERRY
  | PINEAPPLE | MANGO | PEACH | CHERRY | KIWI | COCONUT | MELON | AVOCADO
  | BOMB
deriving DecidableEq

def FRUIT_TYPES : List FruitType :=
  [.APPLE, .PEAR, .ORANGE, .LEMON, .BANANA, .WATERMELON, .GRAPE, .STRAWBERRY,
   .PINEAPPLE, .MANGO, .PEACH, .CHERRY, .KIWI, .COCONUT, .MELON, .AVOCADO]

def BOMB_TYPE : FruitType := .BOMB

/-- FRUIT_COLORS lookup (constants.ts); colors are opaque strings to the core. -/
def FRUIT_COLORS : FruitType → String
  | .APPLE => "#ff4d4d" | .PEAR => "#99cc00" | .ORANGE => "#ffad33"
  | .LEMON => "#ffff66" | .BANANA => "#ffe135" | .WATERMELON => "#ff6666"
  | .GRAPE => "#9933ff" | .STRAWBERRY => "#ff0066" | .PINEAPPLE => "#ffff00"
  | .MANGO => "#ffcc00" | .PEACH => "#ff9966" | .CHERRY => "#cc0000"
  | .KIWI => "#66cc00" | .COCONUT => "#e6e6e6" | .MELON => "#99ff99"
  | .AVOCADO => "#ccff66" | .BOMB => "#333333"

def WINNING_QUOTES : List String :=
  ["Sharp blade, sharper mind!", "A glorious harvest!",
   "Your reflexes are legendary!", "The fruits fear your name!",
   "Precision and power in perfect harmony!", "True mastery achieved!",
   "You flow like water, slice like steel."]

def LOSING_QUOTES : List String :=
  ["Mind the explosives, young grasshopper.", "Chaos is the enemy of the ninja.",
   "Focus on the fruit, ignore the distractions.",
   "A dull blade cuts nothing but hope. Try again.",
   "Victory requires patience, not just speed.",
   "The bomb is not a fruit. Remember this.",
   "Fall down seven times, stand up eight."]

/-! ### Data model (types.ts) -/

structure TrailPoint where
  x : ℚ
  y : ℚ
  timestamp : ℤ
deriving DecidableEq

structure Entity where
  id : String
  type : FruitType
  x : ℚ
  y : ℚ
  vx : ℚ
  vy : ℚ
  rotation : ℚ
  rotationSpeed : ℚ
  radius : ℚ
  isSliced : Bool
  scale : ℚ
  opacity : ℚ
  flash : ℚ
  isFragment : Bool := false
  sliceAngleRelative : Option ℚ := none
  sliceSide : Option ℤ := none
deriving DecidableEq

inductive ParticleType where
  | JUICE | SPARK | CORE
deriving DecidableEq

structure Particle where
  id : String
  type : ParticleType
  x : ℚ
  y : ℚ
  vx : ℚ
  vy : ℚ
  color : String
  life : ℚ
  decay : ℚ
  size : ℚ
  gravity : ℚ
  rotation : ℚ
  rotationSpeed : ℚ
  stuck : Bool
  scale : ℚ
deriving DecidableEq

structure FloatingText where
  id : String
  text : String
  x : ℚ
  y : ℚ
  vx : ℚ
  vy : ℚ
  life : ℚ
  color : String
  scale : ℚ
deriving DecidableEq

structure GameStats where
  score : ℕ
  highScore : ℕ
  combos : ℕ
  fruitsSliced : ℕ
  bombsHit : ℕ
  accuracy : ℕ
  maxCombo : ℕ
deriving DecidableEq

def zeroStats : GameStats :=
  { score := 0, highScore := 0, combos := 0, fruitsSliced := 0, bombsHit := 0,
    accuracy := 0, maxCombo := 0 }

inductive GState where
  | LOADING | MENU | PLAYING | GAMEOVER
deriving DecidableEq

/-- The mutable simulation context of `GameCanvas`: the `useRef` cells and
the React state that the tick loop reads and writes. -/
structure GameState where
  entities : List Entity
  particles : List Particle
  floatingTexts : List FloatingText
  trail : List TrailPoint
  lastHandPos : Option (ℚ × ℚ)
  score : ℕ
  lives : ℤ
  stats : GameStats
  shakeIntensity : ℚ
  currentCombo : ℕ
  comboTimer : ℤ
  spawnTimer : ℚ
  gameState : GState
  finalStats : Option GameStats
  gameOverQuote : String
deriving DecidableEq

/-- Uninterpreted transcendental / random primitives used by the source.
`rand k` models the k-th `Math.random()` draw of a call site. -/
structure Oracle where
  rand : ℕ → ℚ
  atan2 : ℚ → ℚ → ℚ
  cosq : ℚ → ℚ
  sinq : ℚ → ℚ
  sqrtq : ℚ → ℚ
  powq : ℚ → ℚ → ℚ
  pi : ℚ
  idStr : ℕ → String

/-! ### Collision geometry (checkCollisions, lines 277-305)

The source computes `dist = Math.hypot(dx, dy)` and `l2 = dist * dist`;
over the reals `l2 = dx² + dy²` exactly, which is how `segLenSq` is
defined here. -/

def segLenSq (p1 p2 : TrailPoint) : ℚ :=
  (p2.x - p1.x) * (p2.x - p1.x) + (p2.y - p1.y) * (p2.y - p1.y)

/-- `t = ((entity.x - p1.x) * dx + (entity.y - p1.y) * dy) / l2`, clamped
to [0,1] (`t = Math.max(0, Math.min(1, t))`). -/
def projT (p1 p2 : TrailPoint) (cx cy : ℚ) : ℚ :=
  max 0 (min 1 (((cx - p1.x) * (p2.x - p1.x) + (cy - p1.y) * (p2.y - p1.y)) / segLenSq p1 p2))

def closestX (p1 p2 : TrailPoint) (cx cy : ℚ) : ℚ :=
  p1.x + projT p1 p2 cx cy * (p2.x - p1.x)

def closestY (p1 p2 : TrailPoint) (cx cy : ℚ) : ℚ :=
  p1.y + projT p1 p2 cx cy * (p2.y - p1.y)

/-- Squared distance from `(cx, cy)` to the closest point of the segment;
the source's `distToSegment = Math.hypot(entity.x - projX, entity.y - projY)`
squared. -/
def distToSegmentSq (p1 p2 : TrailPoint) (cx cy : ℚ) : ℚ :=
  (cx - closestX p1 p2 cx cy) * (cx - closestX p1 p2 cx cy) +
    (cy - closestY p1 p2 cx cy) * (cy - closestY p1 p2 cx cy)

/-- The per-entity hit predicate of `checkCollisions`: the `l2 === 0`
guard, then `distToSegment < entity.radius * 1.0`, tested on squares. -/
def hitTest (p1 p2 : TrailPoint) (e : Entity) : Bool :=
  if segLenSq p1 p2 = 0 then false
  else decide (distToSegmentSq p1 p2 e.x e.y < (e.radius * 1) * (e.radius * 1))

/-! ### Particle/explosion system (createExplosion, lines 208-269) -/

/-- One particle of `createExplosion`'s loop; `i` is the loop index and the
particle's successive `Math.random()` draws are `o.rand (i*8+k)`. -/
def mkExplosionParticle (o : Oracle) (x y : ℚ) (color : String) (isBomb : Bool)
    (directionAngle : Option ℚ) (forceMagnitude : Option ℚ) (i : ℕ) : Particle :=
  let r : ℕ → ℚ := fun k => o.rand (i * 8 + k)
  let angle : ℚ :=
    match directionAngle with
    | some da => if isBomb then r 0 * o.pi * 2 else da + (r 0 - 0.5) * 0.8
    | none => r 0 * o.pi * 2
  let baseSpeed : ℚ := if isBomb then 30 else 15
  let extraSpeed : ℚ :=
    match forceMagnitude with
    | some f => min f 40 * 0.4
    | none => 0
  let speed := r 1 * (baseSpeed + extraSpeed)
  let isStuck := !isBomb && decide (r 2 < 0.2)
  { id := o.idStr i,
    type := if isBomb then .SPARK else .JUICE,
    x := x, y := y,
    vx := if isStuck then 0 else o.cosq angle * speed,
    vy := if isStuck then 0 else o.sinq angle * speed,
    color := if isBomb then "#ffaa00" else color,
    life := if isStuck then 2 else 1,
    decay := if isStuck then 0.005 else 0.02 + r 3 * 0.03,
    size := r 4 * (if isBomb then 10 else 8) + 3,
    gravity := if isStuck then 0.05 else (if isBomb then 0.2 else 0.5),
    rotation := r 5 * o.pi,
    rotationSpeed := (r 6 - 0.5) * 0.2,
    stuck := isStuck,
    scale := 1 }

/-- The core flash particle pushed at the end of `createExplosion`. -/
def coreParticle (o : Oracle) (x y : ℚ) : Particle :=
  { id := o.idStr 999, type := .CORE, x := x, y := y, vx := 0, vy := 0,
    color := "#ffffff", life := 1, decay := 0.15, size := 80, gravity := 0,
    rotation := 0, rotationSpeed := 0, stuck := false, scale := 1 }

/-- `createExplosion`: 50 particles for a bomb, 25 for a fruit, then the
core flash; the list is in push order. -/
def createExplosion (o : Oracle) (x y : ℚ) (color : String) (isBomb : Bool)
    (directionAngle : Option ℚ) (forceMagnitude : Option ℚ) : List Particle :=
  ((List.range (if isBomb then 50 else 25)).map
      (mkExplosionParticle o x y color isBomb directionAngle forceMagnitude)) ++
    [coreParticle o x y]

/-- `spawnFloatingText` (lines 194-206). -/
def spawnFloatingText (o : Oracle) (x y : ℚ) (text color : String) : FloatingText :=
  { id := o.idStr 998, text := text, x := x, y := y,
    vx := (o.rand 996 - 0.5) * 2, vy := -3 - o.rand 997 * 2,
    life := 1, color := color, scale := 1 }

/-! ### Fragmentation and hit effects (checkCollisions, lines 307-408) -/

/-- `createFragment` (lines 346-380); `side` is `1` or `-1`. -/
def createFragment (o : Oracle) (e : Entity) (dx dy dist sliceAngle offsetFactor : ℚ)
    (side : ℤ) : Entity :=
  let sepVelocity : ℚ := 1.5
  let forwardImpulse : ℚ := 0.2
  let perpAngle := sliceAngle + o.pi / 2
  let vxSep := o.cosq perpAngle * sepVelocity * (side : ℚ)
  let vySep := o.sinq perpAngle * sepVelocity * (side : ℚ)
  let vxImpulse := dx * forwardImpulse
  let vyImpulse := dy * forwardImpulse
  let spin := offsetFactor * dist * 0.002 + (side : ℚ) * 0.05
  { e with
      id := e.id ++ (if side = 1 then "-A" else "-B"),
      isSliced := true,
      isFragment := true,
      sliceAngleRelative := some (sliceAngle - e.rotation),
      sliceSide := some side,
      vx := e.vx + vxImpulse + vxSep,
      vy := e.vy + vyImpulse + vySep,
      rotationSpeed := e.rotationSpeed + spin,
      flash := 1 }

/-- The two fragments pushed for a fruit hit, sides `1` then `-1`. -/
def fruitFragments (o : Oracle) (p1 p2 : TrailPoint) (e : Entity) : List Entity :=
  let dx := p2.x - p1.x
  let dy := p2.y - p1.y
  let dist := o.sqrtq (segLenSq p1 p2)
  let sliceAngle := o.atan2 dy dx
  let crossZ := dx * (e.y - p1.y) - dy * (e.x - p1.x)
  let offsetFactor := max (-1) (min 1 (crossZ / (dist * e.radius)))
  [createFragment o e dx dy dist sliceAngle offsetFactor 1,
   createFragment o e dx dy dist sliceAngle offsetFactor (-1)]

/-- Scalar-state effects of a bomb hit (lines 308-316): explosion burst,
shake to 45, lives to 0, bombsHit incremented.  The entity itself is
marked sliced in place by the caller. -/
def bombHit (o : Oracle) (st : GameState) (e : Entity) : GameState :=
  { st with
      particles := st.particles ++ createExplosion o e.x e.y ("#fff") true none none,
      shakeIntensity := 45,
      lives := 0,
      stats := { st.stats with bombsHit := st.stats.bombsHit + 1 } }

/-- Scalar-state effects of a fruit hit (lines 318-405): juice burst,
score +10, fruitsSliced, floating "+10" text, then the combo block and
`comboTimerRef.current = now`. -/
def fruitHitState (o : Oracle) (p1 p2 : TrailPoint) (now : ℤ) (st : GameState)
    (e : Entity) : GameState :=
  let dx := p2.x - p1.x
  let dy := p2.y - p1.y
  let dist := o.sqrtq (segLenSq p1 p2)
  let color := FRUIT_COLORS e.type
  let sliceAngle := o.atan2 dy dx
  let st := { st with
      particles := st.particles ++
        createExplosion o e.x e.y color false (some sliceAngle) (some dist) }
  let st := { st with
      score := st.score + 10,
      stats := { st.stats with
                   score := st.stats.score + 10,
                   fruitsSliced := st.stats.fruitsSliced + 1 } }
  let st := { st with
      floatingTexts := st.floatingTexts ++
        [spawnFloatingText o e.x (e.y - 50) ("+10") ("#fff")] }
  let st :=
    if now - st.comboTimer < 400 then
      let newCombo := st.currentCombo + 1
      let st := { st with
          stats := { st.stats with maxCombo := max st.stats.maxCombo newCombo } }
      let st :=
        if 1 < newCombo then
          let bonus := newCombo * 5
          { st with
              score := st.score + bonus,
              stats := { st.stats with score := st.stats.score + bonus },
              shakeIntensity := min ((newCombo : ℚ) * 3) 15,
              floatingTexts := st.floatingTexts ++
                [spawnFloatingText o e.x (e.y - 100)
                  (toString newCombo ++ "x COMBO!") ("#ffff00")] }
        else st
      { st with currentCombo := newCombo }
    else { st with currentCombo := 1 }
  { st with comboTimer := now }

/-- Accumulator for the `entitiesRef.current.forEach` scan: the scalar
state, the scanned entity list (with in-place bomb markings), and the
batched `entitiesToRemove` / `entitiesToAdd`. -/
structure ScanAcc where
  st : GameState
  entitiesOut : List Entity
  toRemove : List String
  toAdd : List Entity

/-- One iteration of the entity scan (lines 290-408). -/
def collideEntity (o : Oracle) (p1 p2 : TrailPoint) (now : ℤ) (acc : ScanAcc)
    (e : Entity) : ScanAcc :=
  if e.isSliced then { acc with entitiesOut := acc.entitiesOut ++ [e] }
  else if hitTest p1 p2 e then
    if e.type = BOMB_TYPE then
      { acc with
          st := bombHit o acc.st e,
          entitiesOut := acc.entitiesOut ++ [{ e with isSliced := true, flash := 1 }] }
    else
      { acc with
          st := fruitHitState o p1 p2 now acc.st e,
          entitiesOut := acc.entitiesOut ++ [e],
          toRemove := acc.toRemove ++ [e.id],
          toAdd := acc.toAdd ++ fruitFragments o p1 p2 e }
  else { acc with entitiesOut := acc.entitiesOut ++ [e] }

/-- `checkCollisions` (lines 271-424).  The source's `dist < 5` slow-swipe
gate is tested on squares (`hypot(dx,dy) < 5` iff `dx²+dy² < 25`). -/
def checkCollisions (o : Oracle) (now : ℤ) (st : GameState) : GameState :=
  match st.trail.reverse with
  | p2 :: p1 :: _ =>
      if segLenSq p1 p2 < 25 then st
      else
        let acc := st.entities.foldl (collideEntity o p1 p2 now)
          { st := st, entitiesOut := [], toRemove := [], toAdd := [] }
        let newEntities :=
          if acc.toRemove = [] then acc.entitiesOut
          else acc.entitiesOut.filter (fun e => !(acc.toRemove.contains e.id)) ++ acc.toAdd
        { acc.st with entities := newEntities }
  | _ => st

/-! ### Simulation stepper and session lifecycle (update, startGame,
endGame, renderFrame; lines 426-498, 729-789) -/

/-- `endGame` (lines 749-757): freeze into GAMEOVER, snapshot the stats,
pick a quote pool by `score > 50` and a uniform random index. -/
def endGame (o : Oracle) (st : GameState) : GameState :=
  let quotes := if 50 < st.stats.score then WINNING_QUOTES else LOSING_QUOTES
  { st with
      gameState := .GAMEOVER,
      finalStats := some st.stats,
      gameOverQuote := quotes.getD (Int.toNat ⌊o.rand 0 * (quotes.length : ℚ)⌋) ("") }

/-- `spawnEntity` (lines 160-192); `o.rand k` is its k-th `Math.random()`. -/
def spawnEntity (o : Oracle) (width height : ℚ) (difficulty : DifficultyConfig) : Entity :=
  let isBomb := decide (o.rand 0 < difficulty.bombChance)
  let ftype := if isBomb then BOMB_TYPE
    else FRUIT_TYPES.getD (Int.toNat ⌊o.rand 1 * (FRUIT_TYPES.length : ℚ)⌋) .APPLE
  let x := o.rand 2 * (width - 200) + 100
  let y := height + 50
  let scaleFactor := height / 1080
  let targetX := width / 2 + (o.rand 3 * 300 - 150)
  let flightTime := 200 + o.rand 4 * 60
  let vx := ((targetX - x) / flightTime) * (1 + o.rand 5 * 0.2)
  let vy := -(o.rand 6 * (difficulty.maxSpeed - difficulty.minSpeed) + difficulty.minSpeed)
      * scaleFactor
  { id := o.idStr 0, type := ftype, x := x, y := y, vx := vx, vy := vy,
    rotation := 0, rotationSpeed := (o.rand 7 - 0.5) * 0.15,
    radius := FRUIT_RADIUS * scaleFactor,
    isSliced := false, scale := 1, opacity := 1, flash := 0 }

/-- Entity integration step of `update` (lines 449-464). -/
def stepEntity (gravity timeScale : ℚ) (e : Entity) : Entity :=
  let e := { e with
      x := e.x + e.vx * timeScale,
      y := e.y + e.vy * timeScale,
      vy := e.vy + gravity * timeScale,
      rotation := e.rotation + e.rotationSpeed * timeScale }
  let e :=
    if e.isSliced then
      { e with
          opacity := e.opacity - (if e.isFragment then 0.03 else 0.02) * timeScale,
          scale := if e.isFragment then e.scale else e.scale + 0.01 * timeScale }
    else e
  if 0 < e.flash then { e with flash := e.flash - 0.1 * timeScale } else e

/-- Particle integration step of `update` (lines 468-483); `now` feeds the
`Math.sin(Date.now() / 100)` pulse of stuck particles. -/
def stepParticle (o : Oracle) (timeScale : ℚ) (now : ℤ) (p : Particle) : Particle :=
  if p.stuck then
    { p with
        y := p.y + p.gravity * timeScale,
        life := p.life - p.decay * timeScale,
        scale := 1 + o.sinq ((now : ℚ) / 100) * 0.1 }
  else
    { p with
        x := p.x + p.vx * timeScale,
        y := p.y + p.vy * timeScale,
        vx := p.vx * 0.95,
        vy := (p.vy + p.gravity * timeScale) * 0.95,
        life := p.life - p.decay * timeScale,
        rotation := p.rotation + p.rotationSpeed * timeScale }

/-- Floating-text step of `update` (lines 487-492). -/
def stepFloatingText (timeScale : ℚ) (ft : FloatingText) : FloatingText :=
  { ft with
      x := ft.x + ft.vx * timeScale,
      y := ft.y + ft.vy * timeScale,
      life := ft.life - 0.02 * timeScale,
      scale := ft.scale + 0.01 * timeScale }

/-- The game-over check at the top of `update` (lines 427-431): from
PLAYING with no lives left and shake decayed below 1, end the round. -/
def gameOverCheck (o : Oracle) (st : GameState) : GameState :=
  if st.lives ≤ 0 ∧ st.gameState = GState.PLAYING then
    (if st.shakeIntensity < 1 then endGame o st else st)
  else st

/-- The shake decay of `update` (lines 433-437): multiplicative decay
`0.9 ^ (dt * 60)`, snapped to 0 below the 0.5 threshold. -/
def shakeDecay (o : Oracle) (dt : ℚ) (st : GameState) : GameState :=
  if 0 < st.shakeIntensity then
    let s := st.shakeIntensity * o.powq 0.9 (dt * 60)
    { st with shakeIntensity := if s < 0.5 then 0 else s }
  else st

/-- The integration part of `update` (lines 439-497): difficulty
selection, spawn timer, entity/particle/text stepping with removal, trail
pruning. -/
def simStep (o : Oracle) (dt width height : ℚ) (now : ℤ) (st : GameState) : GameState :=
  let difficulty := if 250 < st.score then HARD_DIFFICULTY else INITIAL_DIFFICULTY
  let timeScale := dt * 60
  let spawnT := st.spawnTimer + dt * 1000
  let spawned :=
    if difficulty.spawnRate < spawnT then
      (st.entities ++ [spawnEntity o width height difficulty], (0 : ℚ))
    else (st.entities, spawnT)
  let entities2 := (spawned.1.map (stepEntity difficulty.gravity timeScale)).filter
      (fun e => decide (0 < e.opacity) && decide (e.y < height + 300))
  let particles2 := (st.particles.map (stepParticle o timeScale now)).filter
      (fun p => decide (0 < p.life))
  let texts2 := (st.floatingTexts.map (stepFloatingText timeScale)).filter
      (fun ft => decide (0 < ft.life))
  let trail2 := st.trail.filter (fun p => decide (now - p.timestamp < SLICE_LIFETIME))
  { st with
      entities := entities2,
      particles := particles2,
      floatingTexts := texts2,
      trail := trail2,
      spawnTimer := spawned.2 }

/-- `update` (lines 426-498) is the sequential composition of its three
sections, in source order. -/
def update (o : Oracle) (dt width height : ℚ) (now : ℤ) (st : GameState) : GameState :=
  simStep o dt width height now (shakeDecay o dt (gameOverCheck o st))

/-- `startGame` (lines 729-747): note that `comboTimerRef` and the
`currentCombo` React state are NOT among the cells it resets, and neither
is `spawnTimerRef`. -/
def startGame (st : GameState) : GameState :=
  { st with
      score := 0,
      lives := 1,
      entities := [],
      particles := [],
      floatingTexts := [],
      trail := [],
      lastHandPos := none,
      stats := zeroStats,
      shakeIntensity := 0,
      gameState := .PLAYING,
      finalStats := none,
      gameOverQuote := "" }

/-- The trail-feeding effect of `detectHand` (lines 683-727), with the
externally produced (already smoothed) pointer sample as input: a sample
is appended to the trail; with no sample and an empty trail the cached
last hand position is cleared. -/
def pushTrail (inp : Option TrailPoint) (st : GameState) : GameState :=
  match inp with
  | some p => { st with trail := st.trail ++ [p], lastHandPos := some (p.x, p.y) }
  | none => if st.trail.length = 0 then { st with lastHandPos := none } else st

/-- The per-frame dispatch of `renderFrame` (lines 773-782): PLAYING runs
detect/collide/update; MENU and GAMEOVER run detect and, only while
particles or floating texts remain, the full `update`; LOADING runs
nothing. -/
def frameStep (o : Oracle) (dt width height : ℚ) (now : ℤ) (inp : Option TrailPoint)
    (st : GameState) : GameState :=
  match st.gameState with
  | .PLAYING =>
      let st := pushTrail inp st
      update o dt width height now (checkCollisions o now st)
  | .MENU =>
      let st := pushTrail inp st
      if st.particles.length ≠ 0 ∨ st.floatingTexts.length ≠ 0 then
        update o dt width height now st
      else st
  | .GAMEOVER =>
      let st := pushTrail inp st
      if st.particles.length ≠ 0 ∨ st.floatingTexts.length ≠ 0 then
        update o dt width height now st
      else st
  | .LOADING => st

/-! ### Feedback service (geminiService.ts, lines 12-42) -/

/-- Outcome of the `ai.models.generateContent` call: either a response
whose `text` field may be absent or empty, or a thrown error. -/
inductive ApiOutcome where
  | success (text : Option String)
  | failure
deriving DecidableEq

/-- `generateSenseiFeedback`: the `try/catch` and fallback structure. An
absent API key yields the silent-dojo string before any call is made; a
thrown error is caught and mapped to a fixed string; `response.text ||
fallback` maps an absent or empty text to a fixed string. -/
def generateSenseiFeedback (stats : GameStats) (hasApiKey : Bool)
    (outcome : ApiOutcome) : String :=
  if !hasApiKey then "The Dojo is silent (API Key missing)."
  else
    match outcome with
    | .failure => "Even masters stumble. Try again."
    | .success none => "Focus your mind, and the fruit will reveal its path."
    | .success (some s) =>
        if s = "" then "Focus your mind, and the fruit will reveal its path." else s

/-! ### Theorems -/

/-- A fixed oracle instance used to evaluate theorems on concrete inputs. -/
def oracle0 : Oracle :=
  { rand := fun _ => 0, atan2 := fun _ _ => 0, cosq := fun _ => 0,
    sinq := fun _ => 0, sqrtq := fun _ => 0, powq := fun _ _ => 0,
    pi := 0, idStr := fun _ => ("r") }

/-- Claim C1: for a live, not-yet-sliced entity and a swipe segment long
enough to pass the slow-swipe gate, the detector's hit predicate holds
exactly when the Euclidean distance from the entity center to the closest
point of the segment (projection parameter clamped to [0,1]) is strictly
less than the entity's radius; distance exactly equal to the radius is a
miss (strict inequality). -/
theorem hitTest_iff_dist_lt_radius (p1 p2 : TrailPoint) (e : Entity)
    (hr : 0 ≤ e.radius) (hlen : 25 ≤ segLenSq p1 p2) :
    (hitTest p1 p2 e = true ↔
      Real.sqrt (((e.x - closestX p1 p2 e.x e.y : ℚ) : ℝ) ^ 2 +
        ((e.y - closestY p1 p2 e.x e.y : ℚ) : ℝ) ^ 2) < ((e.radius : ℚ) : ℝ)) := by
  have h0 : segLenSq p1 p2 ≠ 0 := by
    intro h
    rw [h] at hlen
    norm_num at hlen
  have hd : (0 : ℚ) ≤ distToSegmentSq p1 p2 e.x e.y := by
    unfold distToSegmentSq
    exact add_nonneg (mul_self_nonneg _) (mul_self_nonneg _)
  rw [hitTest, if_neg h0, decide_eq_true_iff]
  have hcast : ((e.x - closestX p1 p2 e.x e.y : ℚ) : ℝ) ^ 2 +
      ((e.y - closestY p1 p2 e.x e.y : ℚ) : ℝ) ^ 2
      = ((distToSegmentSq p1 p2 e.x e.y : ℚ) : ℝ) := by
    rw [distToSegmentSq]
    push_cast
    ring
  rw [hcast]
  rcases eq_or_lt_of_le hr with h | h
  · constructor
    · intro hlt
      exfalso
      rw [← h] at hlt
      norm_num at hlt
      exact absurd hlt (not_lt.mpr hd)
    · intro hlt
      exfalso
      rw [← h] at hlt
      norm_num at hlt
      exact absurd hlt (not_lt.mpr (Real.sqrt_nonneg _))
  · rw [Real.sqrt_lt' (by exact_mod_cast h)]
    rw [show ((e.radius : ℚ) : ℝ) ^ 2 = (((e.radius * 1) * (e.radius * 1) : ℚ) : ℝ) by
      push_cast; ring]
    exact ⟨fun hq => by exact_mod_cast hq, fun hq => by exact_mod_cast hq⟩

def c1Fruit : Entity :=
  { id := "f1", type := .APPLE, x := 50, y := 10, vx := 0, vy := 0,
    rotation := 0, rotationSpeed := 0, radius := 35, isSliced := false,
    scale := 1, opacity := 1, flash := 0 }

def c1P1 : TrailPoint := { x := 0, y := 0, timestamp := 0 }

def c1P2 : TrailPoint := { x := 100, y := 0, timestamp := 16 }

theorem hitTest_iff_dist_lt_radius_witness :
    (0 : ℚ) ≤ c1Fruit.radius ∧ 25 ≤ segLenSq c1P1 c1P2 ∧
    (hitTest c1P1 c1P2 c1Fruit = true ↔
      Real.sqrt (((c1Fruit.x - closestX c1P1 c1P2 c1Fruit.x c1Fruit.y : ℚ) : ℝ) ^ 2 +
        ((c1Fruit.y - closestY c1P1 c1P2 c1Fruit.x c1Fruit.y : ℚ) : ℝ) ^ 2) <
        ((c1Fruit.radius : ℚ) : ℝ)) :=
  ⟨by norm_num [c1Fruit], by norm_num [segLenSq, c1P1, c1P2],
   hitTest_iff_dist_lt_radius c1P1 c1P2 c1Fruit (by norm_num [c1Fruit])
     (by norm_num [segLenSq, c1P1, c1P2])⟩

/-- Claim C10: with fewer than two trail points, or with the two most
recent trail points closer than 5 pixels apart (tested on squared
length), `checkCollisions` leaves the state untouched; and whenever the
slow-swipe gate passes, the projection divisor `|p2 - p1|²` is nonzero. -/
theorem checkCollisions_guards (o : Oracle) (now : ℤ) (st : GameState) :
    (st.trail.length < 2 → checkCollisions o now st = st) ∧
    (∀ p1 p2 : TrailPoint, ∀ ts : List TrailPoint,
      st.trail.reverse = p2 :: p1 :: ts → segLenSq p1 p2 < 25 →
        checkCollisions o now st = st) ∧
    (∀ p1 p2 : TrailPoint, 25 ≤ segLenSq p1 p2 → segLenSq p1 p2 ≠ 0) := by
  refine ⟨?_, ?_, ?_⟩
  · intro h
    rcases hxs : st.trail.reverse with _ | ⟨a, _ | ⟨b, ts⟩⟩
    · simp [checkCollisions, hxs]
    · simp [checkCollisions, hxs]
    · exfalso
      have hlen := congrArg List.length hxs
      simp at hlen
      omega
  · intro p1 p2 ts hrev hlt
    simp only [checkCollisions, hrev]
    rw [if_pos hlt]
  · intro p1 p2 h25 h0
    rw [h0] at h25
    norm_num at h25

def c10State : GameState :=
  { entities := [], particles := [], floatingTexts := [],
    trail := [{ x := 3, y := 4, timestamp := 0 }], lastHandPos := none,
    score := 0, lives := 1, stats := zeroStats, shakeIntensity := 0,
    currentCombo := 0, comboTimer := 0, spawnTimer := 0,
    gameState := .PLAYING, finalStats := none, gameOverQuote := "" }

theorem checkCollisions_guards_witness :
    checkCollisions oracle0 0 c10State = c10State :=
  (checkCollisions_guards oracle0 0 c10State).1 (by norm_num [c10State])

/-- Helper: a detector pass over a single unsliced fruit entity that the
segment hits applies the fruit-hit effects and replaces the entity by its
two fragments. -/
theorem checkCollisions_single_fruit (o : Oracle) (now : ℤ) (st : GameState)
    (e : Entity) (p1 p2 : TrailPoint) (ts : List TrailPoint)
    (hrev : st.trail.reverse = p2 :: p1 :: ts)
    (hlen : ¬ segLenSq p1 p2 < 25)
    (hent : st.entities = [e])
    (hns : e.isSliced = false)
    (hfruit : ¬ e.type = BOMB_TYPE)
    (hht : hitTest p1 p2 e = true) :
    checkCollisions o now st =
      { fruitHitState o p1 p2 now st e with entities := fruitFragments o p1 p2 e } := by
  simp only [checkCollisions, hrev]
  rw [if_neg hlen]
  simp only [hent, List.foldl_cons, List.foldl_nil]
  simp only [collideEntity, hns, hht, hfruit]
  simp

/-- Helper: a detector pass over a single unsliced bomb entity that the
segment hits applies the bomb-hit effects and marks the bomb sliced with
full flash in place. -/
theorem checkCollisions_single_bomb (o : Oracle) (now : ℤ) (st : GameState)
    (e : Entity) (p1 p2 : TrailPoint) (ts : List TrailPoint)
    (hrev : st.trail.reverse = p2 :: p1 :: ts)
    (hlen : ¬ segLenSq p1 p2 < 25)
    (hent : st.entities = [e])
    (hns : e.isSliced = false)
    (hbomb : e.type = BOMB_TYPE)
    (hht : hitTest p1 p2 e = true) :
    checkCollisions o now st =
      { bombHit o st e with entities := [{ e with isSliced := true, flash := 1 }] } := by
  simp only [checkCollisions, hrev]
  rw [if_neg hlen]
  simp only [hent, List.foldl_cons, List.foldl_nil]
  simp only [collideEntity, hns, hht, hbomb]
  simp

/-- Helper: the scalar projections of the fruit-hit effects, with the
combo branching resolved into closed forms. -/
theorem fruitHitState_proj (o : Oracle) (p1 p2 : TrailPoint) (now : ℤ)
    (st : GameState) (e : Entity) :
    (fruitHitState o p1 p2 now st e).comboTimer = now ∧
    (fruitHitState o p1 p2 now st e).currentCombo =
      (if now - st.comboTimer < 400 then st.currentCombo + 1 else 1) ∧
    (fruitHitState o p1 p2 now st e).stats.maxCombo =
      (if now - st.comboTimer < 400 then max st.stats.maxCombo (st.currentCombo + 1)
       else st.stats.maxCombo) ∧
    (fruitHitState o p1 p2 now st e).score =
      st.score + 10 +
        (if now - st.comboTimer < 400 ∧ 1 < st.currentCombo + 1
         then (st.currentCombo + 1) * 5 else 0) ∧
    (fruitHitState o p1 p2 now st e).stats.fruitsSliced = st.stats.fruitsSliced + 1 := by
  by_cases h1 : now - st.comboTimer < 400
  · by_cases h2 : 1 < st.currentCombo + 1
    · simp [fruitHitState, h1, h2]
    · simp [fruitHitState, h1, h2]
  · simp [fruitHitState, h1]

/-- Claim C2: a detector pass that hits a live fruit entity removes the
original entity from the collection and adds exactly two fragments, one
per side in {+1, -1}, each sliced and flagged as a fragment, with ids the
original id plus the two distinct suffixes "-A" and "-B", and the score
grows by the fixed per-fruit value 10 plus the combo bonus when the combo
condition holds. -/
theorem fruit_hit_fragments_and_score (o : Oracle) (now : ℤ) (st : GameState)
    (e : Entity) (p1 p2 : TrailPoint) (ts : List TrailPoint)
    (hrev : st.trail.reverse = p2 :: p1 :: ts)
    (hlen : ¬ segLenSq p1 p2 < 25)
    (hent : st.entities = [e])
    (hns : e.isSliced = false)
    (hfruit : ¬ e.type = BOMB_TYPE)
    (hht : hitTest p1 p2 e = true) :
    (checkCollisions o now st).entities.map Entity.id =
      [e.id ++ "-A", e.id ++ "-B"] ∧
    (∀ f ∈ (checkCollisions o now st).entities,
      f.isSliced = true ∧ f.isFragment = true) ∧
    (checkCollisions o now st).entities.map Entity.sliceSide = [some 1, some (-1)] ∧
    (∀ f ∈ (checkCollisions o now st).entities, f.id ≠ e.id) ∧
    (checkCollisions o now st).score =
      st.score + 10 +
        (if now - st.comboTimer < 400 ∧ 1 < st.currentCombo + 1
         then (st.currentCombo + 1) * 5 else 0) := by
  rw [checkCollisions_single_fruit o now st e p1 p2 ts hrev hlen hent hns hfruit hht]
  have hmap : (fruitFragments o p1 p2 e).map Entity.id = [e.id ++ "-A", e.id ++ "-B"] := by
    simp [fruitFragments, createFragment]
  refine ⟨hmap, ?_, ?_, ?_, ?_⟩
  · intro f hf
    simp only [fruitFragments, List.mem_cons, List.not_mem_nil, or_false] at hf
    rcases hf with rfl | rfl <;> simp [createFragment]
  · simp [fruitFragments, createFragment]
  · intro f hf
    have hfid : f.id ∈ (fruitFragments o p1 p2 e).map Entity.id :=
      List.mem_map_of_mem Entity.id hf
    rw [hmap] at hfid
    simp only [List.mem_cons, List.not_mem_nil, or_false] at hfid
    rcases hfid with h | h <;>
    · rw [h]
      intro hEq
      have hL := congrArg String.length hEq
      rw [String.length_append] at hL
      norm_num at hL
      exact absurd hL (by decide)
  · exact (fruitHitState_proj o p1 p2 now st e).2.2.2.1

def c2Fruit : Entity :=
  { id := "f2", type := .PEAR, x := 50, y := 0, vx := 0, vy := 0,
    rotation := 0, rotationSpeed := 0, radius := 35, isSliced := false,
    scale := 1, opacity := 1, flash := 0 }

def c2State : GameState :=
  { entities := [c2Fruit], particles := [], floatingTexts := [],
    trail := [{ x := 0, y := 0, timestamp := 0 }, { x := 100, y := 0, timestamp := 16 }],
    lastHandPos := none, score := 0, lives := 1, stats := zeroStats,
    shakeIntensity := 0, currentCombo := 0, comboTimer := -1000, spawnTimer := 0,
    gameState := .PLAYING, finalStats := none, gameOverQuote := "" }

theorem fruit_hit_fragments_and_score_witness :
    (checkCollisions oracle0 0 c2State).entities.map Entity.id =
      [c2Fruit.id ++ "-A", c2Fruit.id ++ "-B"] :=
  (fruit_hit_fragments_and_score oracle0 0 c2State c2Fruit
    { x := 0, y := 0, timestamp := 0 } { x := 100, y := 0, timestamp := 16 } []
    (by rfl) (by norm_num [segLenSq]) (by rfl) (by rfl) (by decide)
    (by norm_num [hitTest, segLenSq, distToSegmentSq, closestX, closestY, projT,
      c2Fruit])).1

/-- Claim C3: on a fruit hit, a gap below 400 ms since the last fruit hit
increments the combo counter and folds it into maxCombo, awarding a
combo-times-5 score bonus exactly when the resulting combo exceeds 1; a
gap of 400 ms or more (or a first hit) resets the combo to 1 with no
bonus; and the combo timer is set to the hit time in both cases. -/
theorem combo_timing (o : Oracle) (now : ℤ) (st : GameState)
    (e : Entity) (p1 p2 : TrailPoint) (ts : List TrailPoint)
    (hrev : st.trail.reverse = p2 :: p1 :: ts)
    (hlen : ¬ segLenSq p1 p2 < 25)
    (hent : st.entities = [e])
    (hns : e.isSliced = false)
    (hfruit : ¬ e.type = BOMB_TYPE)
    (hht : hitTest p1 p2 e = true) :
    (now - st.comboTimer < 400 →
      (checkCollisions o now st).currentCombo = st.currentCombo + 1 ∧
      (checkCollisions o now st).stats.maxCombo =
        max st.stats.maxCombo (st.currentCombo + 1) ∧
      (1 < st.currentCombo + 1 →
        (checkCollisions o now st).score = st.score + 10 + (st.currentCombo + 1) * 5) ∧
      (¬ 1 < st.currentCombo + 1 →
        (checkCollisions o now st).score = st.score + 10)) ∧
    (¬ now - st.comboTimer < 400 →
      (checkCollisions o now st).currentCombo = 1 ∧
      (checkCollisions o now st).score = st.score + 10 ∧
      (checkCollisions o now st).stats.maxCombo = st.stats.maxCombo) ∧
    (checkCollisions o now st).comboTimer = now := by
  rw [checkCollisions_single_fruit o now st e p1 p2 ts hrev hlen hent hns hfruit hht]
  have hp := fruitHitState_proj o p1 p2 now st e
  refine ⟨?_, ?_, ?_⟩
  · intro h1
    refine ⟨?_, ?_, ?_, ?_⟩
    · rw [show ({ fruitHitState o p1 p2 now st e with
          entities := fruitFragments o p1 p2 e } : GameState).currentCombo =
          (fruitHitState o p1 p2 now st e).currentCombo from rfl, hp.2.1, if_pos h1]
    · rw [show ({ fruitHitState o p1 p2 now st e with
          entities := fruitFragments o p1 p2 e } : GameState).stats =
          (fruitHitState o p1 p2 now st e).stats from rfl, hp.2.2.1, if_pos h1]
    · intro h2
      rw [show ({ fruitHitState o p1 p2 now st e with
          entities := fruitFragments o p1 p2 e } : GameState).score =
          (fruitHitState o p1 p2 now st e).score from rfl, hp.2.2.2.1,
        if_pos (And.intro h1 h2)]
    · intro h2
      rw [show ({ fruitHitState o p1 p2 now st e with
          entities := fruitFragments o p1 p2 e } : GameState).score =
          (fruitHitState o p1 p2 now st e).score from rfl, hp.2.2.2.1]
      rw [if_neg (by tauto)]
  · intro h1
    refine ⟨?_, ?_, ?_⟩
    · rw [show ({ fruitHitState o p1 p2 now st e with
          entities := fruitFragments o p1 p2 e } : GameState).currentCombo =
          (fruitHitState o p1 p2 now st e).currentCombo from rfl, hp.2.1, if_neg h1]
    · rw [show ({ fruitHitState o p1 p2 now st e with
          entities := fruitFragments o p1 p2 e } : GameState).score =
          (fruitHitState o p1 p2 now st e).score from rfl, hp.2.2.2.1]
      rw [if_neg (by tauto)]
    · rw [show ({ fruitHitState o p1 p2 now st e with
          entities := fruitFragments o p1 p2 e } : GameState).stats =
          (fruitHitState o p1 p2 now st e).stats from rfl, hp.2.2.1, if_neg h1]
  · rw [show ({ fruitHitState o p1 p2 now st e with
        entities := fruitFragments o p1 p2 e } : GameState).comboTimer =
        (fruitHitState o p1 p2 now st e).comboTimer from rfl, hp.1]

def c3Fruit : Entity :=
  { id := "f3", type := .MANGO, x := 50, y := 0, vx := 0, vy := 0,
    rotation := 0, rotationSpeed := 0, radius := 35, isSliced := false,
    scale := 1, opacity := 1, flash := 0 }

def c3State : GameState :=
  { entities := [c3Fruit], particles := [], floatingTexts := [],
    trail := [{ x := 0, y := 0, timestamp := 0 }, { x := 100, y := 0, timestamp := 16 }],
    lastHandPos := none, score := 0, lives := 1, stats := zeroStats,
    shakeIntensity := 0, currentCombo := 1, comboTimer := 900, spawnTimer := 0,
    gameState := .PLAYING, finalStats := none, gameOverQuote := "" }

theorem combo_timing_witness :
    (checkCollisions oracle0 1000 c3State).currentCombo = c3State.currentCombo + 1 ∧
    (checkCollisions oracle0 1000 c3State).stats.maxCombo =
      max c3State.stats.maxCombo (c3State.currentCombo + 1) ∧
    (1 < c3State.currentCombo + 1 →
      (checkCollisions oracle0 1000 c3State).score =
        c3State.score + 10 + (c3State.currentCombo + 1) * 5) ∧
    (¬ 1 < c3State.currentCombo + 1 →
      (checkCollisions oracle0 1000 c3State).score = c3State.score + 10) :=
  (combo_timing oracle0 1000 c3State c3Fruit
    { x := 0, y := 0, timestamp := 0 } { x := 100, y := 0, timestamp := 16 } []
    (by rfl) (by norm_num [segLenSq]) (by rfl) (by rfl) (by decide)
    (by norm_num [hitTest, segLenSq, distToSegmentSq, closestX, closestY, projT,
      c3Fruit])).1 (by decide)

/-- Claim C7: a detector pass that hits a live bomb entity sets lives to
0, increments bombsHit, marks the bomb sliced with full flash, emits a
50-particle SPARK burst (the hit-point core flash is the only other
particle added), sets screen-shake to the fixed magnitude 45, and leaves
the combo timer and the current combo counter unchanged. -/
theorem bomb_hit_effects (o : Oracle) (now : ℤ) (st : GameState)
    (e : Entity) (p1 p2 : TrailPoint) (ts : List TrailPoint)
    (hrev : st.trail.reverse = p2 :: p1 :: ts)
    (hlen : ¬ segLenSq p1 p2 < 25)
    (hent : st.entities = [e])
    (hns : e.isSliced = false)
    (hbomb : e.type = BOMB_TYPE)
    (hht : hitTest p1 p2 e = true)
    (hpart : st.particles = []) :
    (checkCollisions o now st).lives = 0 ∧
    (checkCollisions o now st).stats.bombsHit = st.stats.bombsHit + 1 ∧
    (checkCollisions o now st).entities = [{ e with isSliced := true, flash := 1 }] ∧
    ((checkCollisions o now st).particles.filter
      (fun p => decide (p.type = ParticleType.SPARK))).length = 50 ∧
    (checkCollisions o now st).particles.length = 51 ∧
    (checkCollisions o now st).shakeIntensity = 45 ∧
    (checkCollisions o now st).comboTimer = st.comboTimer ∧
    (checkCollisions o now st).currentCombo = st.currentCombo := by
  rw [checkCollisions_single_bomb o now st e p1 p2 ts hrev hlen hent hns hbomb hht]
  have hty : ∀ i : ℕ,
      (mkExplosionParticle o e.x e.y ("#fff") true none none i).type =
        ParticleType.SPARK := by
    intro i
    simp [mkExplosionParticle]
  refine ⟨rfl, by simp [bombHit], rfl, ?_, ?_, by simp [bombHit], by simp [bombHit],
    by simp [bombHit]⟩
  · show ((bombHit o st e).particles.filter
      (fun p => decide (p.type = ParticleType.SPARK))).length = 50
    simp only [bombHit, hpart, List.nil_append, createExplosion, if_pos trivial,
      List.filter_append]
    rw [List.filter_eq_self.mpr ?_]
    · simp [coreParticle]
    · intro p hp
      rcases List.mem_map.mp hp with ⟨i, _, rfl⟩
      simp [hty i]
  · show (bombHit o st e).particles.length = 51
    simp [bombHit, hpart, createExplosion]

def c7Bomb : Entity :=
  { id := "b7", type := .BOMB, x := 50, y := 0, vx := 0, vy := 0,
    rotation := 0, rotationSpeed := 0, radius := 35, isSliced := false,
    scale := 1, opacity := 1, flash := 0 }

def c7State : GameState :=
  { entities := [c7Bomb], particles := [], floatingTexts := [],
    trail := [{ x := 0, y := 0, timestamp := 0 }, { x := 100, y := 0, timestamp := 16 }],
    lastHandPos := none, score := 40, lives := 1, stats := zeroStats,
    shakeIntensity := 0, currentCombo := 3, comboTimer := 500, spawnTimer := 0,
    gameState := .PLAYING, finalStats := none, gameOverQuote := "" }

theorem bomb_hit_effects_witness :
    (checkCollisions oracle0 1000 c7State).lives = 0 ∧
    (checkCollisions oracle0 1000 c7State).stats.bombsHit = c7State.stats.bombsHit + 1 ∧
    (checkCollisions oracle0 1000 c7State).entities =
      [{ c7Bomb with isSliced := true, flash := 1 }] ∧
    ((checkCollisions oracle0 1000 c7State).particles.filter
      (fun p => decide (p.type = ParticleType.SPARK))).length = 50 ∧
    (checkCollisions oracle0 1000 c7State).particles.length = 51 ∧
    (checkCollisions oracle0 1000 c7State).shakeIntensity = 45 ∧
    (checkCollisions oracle0 1000 c7State).comboTimer = c7State.comboTimer ∧
    (checkCollisions oracle0 1000 c7State).currentCombo = c7State.currentCombo :=
  bomb_hit_effects oracle0 1000 c7State c7Bomb
    { x := 0, y := 0, timestamp := 0 } { x := 100, y := 0, timestamp := 16 } []
    (by rfl) (by norm_num [segLenSq]) (by rfl) (by rfl) (by rfl)
    (by norm_num [hitTest, segLenSq, distToSegmentSq, closestX, closestY, projT,
      c7Bomb]) (by rfl)

/-- Helper: the particle list produced by a tick is the stepped old list
with the dead (life less or equal 0) particles filtered out. -/
theorem update_particles_eq (o : Oracle) (dt width height : ℚ) (now : ℤ)
    (st : GameState) :
    (update o dt width height now st).particles =
      (st.particles.map (stepParticle o (dt * 60) now)).filter
        (fun p => decide (0 < p.life)) := by
  have h1 : (shakeDecay o dt (gameOverCheck o st)).particles = st.particles := by
    unfold shakeDecay gameOverCheck endGame
    split_ifs <;> rfl
  calc (update o dt width height now st).particles
      = ((shakeDecay o dt (gameOverCheck o st)).particles.map
          (stepParticle o (dt * 60) now)).filter (fun p => decide (0 < p.life)) := rfl
    _ = _ := by rw [h1]

/-- Claim C8: each particle's life strictly decreases on a simulation tick
with positive elapsed time (given the positive decay rate every particle
is created with), and after the tick completes no particle with life at
or below 0 remains in the collection. -/
theorem particle_life_decreases (o : Oracle) (dt width height : ℚ) (now : ℤ)
    (st : GameState) (hdt : 0 < dt)
    (hdec : ∀ p ∈ st.particles, 0 < p.decay) :
    (∀ p ∈ st.particles, (stepParticle o (dt * 60) now p).life < p.life) ∧
    (∀ q ∈ (update o dt width height now st).particles, 0 < q.life) := by
  constructor
  · intro p hp
    have hd := hdec p hp
    have hpos : 0 < p.decay * (dt * 60) := by positivity
    unfold stepParticle
    split_ifs <;>
    · show p.life - p.decay * (dt * 60) < p.life
      linarith
  · intro q hq
    rw [update_particles_eq] at hq
    simpa using List.of_mem_filter hq

def c8Particle : Particle :=
  { id := "p8", type := .JUICE, x := 0, y := 0, vx := 1, vy := -2,
    color := "#ff4d4d", life := 1, decay := 1/50, size := 5, gravity := 1/2,
    rotation := 0, rotationSpeed := 0, stuck := false, scale := 1 }

def c8State : GameState :=
  { entities := [], particles := [c8Particle], floatingTexts := [], trail := [],
    lastHandPos := none, score := 0, lives := 1, stats := zeroStats,
    shakeIntensity := 0, currentCombo := 0, comboTimer := 0, spawnTimer := 0,
    gameState := .PLAYING, finalStats := none, gameOverQuote := "" }

theorem particle_life_decreases_witness :
    (∀ p ∈ c8State.particles,
      (stepParticle oracle0 ((1/60 : ℚ) * 60) 16 p).life < p.life) ∧
    (∀ q ∈ (update oracle0 (1/60) 1280 720 16 c8State).particles, 0 < q.life) :=
  particle_life_decreases oracle0 (1/60) 1280 720 16 c8State (by norm_num)
    (by intro p hp
        simp only [c8State, List.mem_singleton] at hp
        subst hp
        norm_num [c8Particle])

/-- Claim C4 (counterexample): `startGame` does not reset the combo: from
a state with combo counter 5 and combo timer 1000 the transition into
PLAYING keeps both values, so the claim that the combo counter and timer
are reset to zero is false. -/
def c4State : GameState :=
  { entities := [], particles := [], floatingTexts := [], trail := [],
    lastHandPos := none, score := 120, lives := 0, stats := zeroStats,
    shakeIntensity := 3, currentCombo := 5, comboTimer := 1000, spawnTimer := 700,
    gameState := .GAMEOVER, finalStats := some zeroStats, gameOverQuote := "x" }

theorem startGame_combo_not_reset :
    ¬ ((startGame c4State).currentCombo = 0 ∧ (startGame c4State).comboTimer = 0) := by
  simp [startGame, c4State]

/-- Claim C4 (amended): the start/retry transition into PLAYING resets the
entity, particle, floating-text and trail collections to empty, all stats
to zero, the score to zero, lives to 1, and screen-shake to zero — but the
combo counter and the combo timer are NOT reset: they keep their previous
values (as does the spawn timer). -/
theorem startGame_resets (st : GameState) :
    (startGame st).entities = [] ∧
    (startGame st).particles = [] ∧
    (startGame st).floatingTexts = [] ∧
    (startGame st).trail = [] ∧
    (startGame st).stats = zeroStats ∧
    (startGame st).score = 0 ∧
    (startGame st).lives = 1 ∧
    (startGame st).shakeIntensity = 0 ∧
    (startGame st).gameState = GState.PLAYING ∧
    (startGame st).finalStats = none ∧
    (startGame st).currentCombo = st.currentCombo ∧
    (startGame st).comboTimer = st.comboTimer ∧
    (startGame st).spawnTimer = st.spawnTimer := by
  simp [startGame]

/-- Helper: the game-over check touches only the session state, the final
stats snapshot and the quote. -/
theorem gameOverCheck_scalars (o : Oracle) (st : GameState) :
    (gameOverCheck o st).score = st.score ∧
    (gameOverCheck o st).stats = st.stats ∧
    (gameOverCheck o st).currentCombo = st.currentCombo ∧
    (gameOverCheck o st).comboTimer = st.comboTimer ∧
    (gameOverCheck o st).lives = st.lives ∧
    (gameOverCheck o st).entities = st.entities ∧
    (gameOverCheck o st).particles = st.particles ∧
    (gameOverCheck o st).floatingTexts = st.floatingTexts ∧
    (gameOverCheck o st).trail = st.trail ∧
    (gameOverCheck o st).spawnTimer = st.spawnTimer ∧
    (gameOverCheck o st).shakeIntensity = st.shakeIntensity := by
  unfold gameOverCheck endGame
  split_ifs <;> exact ⟨rfl, rfl, rfl, rfl, rfl, rfl, rfl, rfl, rfl, rfl, rfl⟩

/-- Helper: the shake decay touches only the shake intensity. -/
theorem shakeDecay_scalars (o : Oracle) (dt : ℚ) (st : GameState) :
    (shakeDecay o dt st).score = st.score ∧
    (shakeDecay o dt st).stats = st.stats ∧
    (shakeDecay o dt st).currentCombo = st.currentCombo ∧
    (shakeDecay o dt st).comboTimer = st.comboTimer ∧
    (shakeDecay o dt st).lives = st.lives ∧
    (shakeDecay o dt st).entities = st.entities ∧
    (shakeDecay o dt st).particles = st.particles ∧
    (shakeDecay o dt st).floatingTexts = st.floatingTexts ∧
    (shakeDecay o dt st).trail = st.trail ∧
    (shakeDecay o dt st).spawnTimer = st.spawnTimer ∧
    (shakeDecay o dt st).gameState = st.gameState := by
  unfold shakeDecay
  split_ifs <;> exact ⟨rfl, rfl, rfl, rfl, rfl, rfl, rfl, rfl, rfl, rfl, rfl⟩

/-- Helper: outside PLAYING the game-over check is the identity. -/
theorem gameOverCheck_eq_of_not_playing (o : Oracle) (st : GameState)
    (h : ¬ st.gameState = GState.PLAYING) : gameOverCheck o st = st := by
  unfold gameOverCheck
  rw [if_neg (by tauto)]

/-- Helper: with no active shake the decay step is the identity. -/
theorem shakeDecay_eq_of_nonpos (o : Oracle) (dt : ℚ) (st : GameState)
    (h : ¬ 0 < st.shakeIntensity) : shakeDecay o dt st = st := by
  unfold shakeDecay
  rw [if_neg h]

/-- Helper: the session state after a tick is the session state after its
game-over check. -/
theorem update_gameState_eq (o : Oracle) (dt width height : ℚ) (now : ℤ)
    (st : GameState) :
    (update o dt width height now st).gameState = (gameOverCheck o st).gameState := by
  calc (update o dt width height now st).gameState
      = (shakeDecay o dt (gameOverCheck o st)).gameState := rfl
    _ = (gameOverCheck o st).gameState :=
        (shakeDecay_scalars o dt (gameOverCheck o st)).2.2.2.2.2.2.2.2.2.2

def c6State : GameState :=
  { entities := [], particles := [], floatingTexts := [], trail := [],
    lastHandPos := none, score := 30, lives := 0, stats := zeroStats,
    shakeIntensity := 7/10, currentCombo := 0, comboTimer := 0, spawnTimer := 0,
    gameState := .PLAYING, finalStats := none, gameOverQuote := "" }

/-- Claim C6 (counterexample): with lives at 0 and screen-shake 0.7 — at
or above the 0.5 snap-to-zero threshold, so by the claim the session
should stay in PLAYING — the tick nevertheless transitions to GAMEOVER,
because the transition tests shake against the separate threshold 1, not
against the snap threshold. -/
theorem gameover_fires_at_shake_above_snap :
    (1/2 : ℚ) ≤ c6State.shakeIntensity ∧ c6State.lives = 0 ∧
    (update oracle0 (1/60) 1280 720 0 c6State).gameState = GState.GAMEOVER := by
  refine ⟨by norm_num [c6State], rfl, ?_⟩
  rw [update_gameState_eq]
  have hgo : gameOverCheck oracle0 c6State = endGame oracle0 c6State := by
    unfold gameOverCheck
    rw [if_pos ⟨by norm_num [c6State], rfl⟩, if_pos (by norm_num [c6State])]
  rw [hgo]
  rfl

/-- Claim C6 (amended): from PLAYING, the tick transitions to GAMEOVER
exactly when lives are at 0 and the screen-shake intensity is strictly
below 1 — a fixed trigger threshold that is distinct from (twice as large
as) the 0.5 snap-to-zero threshold of the shake decay; while shake is at
least 1 the session stays in PLAYING. -/
theorem playing_to_gameover_iff (o : Oracle) (dt width height : ℚ) (now : ℤ)
    (st : GameState) (hplay : st.gameState = GState.PLAYING) :
    ((update o dt width height now st).gameState = GState.GAMEOVER ↔
      st.lives ≤ 0 ∧ st.shakeIntensity < 1) := by
  rw [update_gameState_eq]
  unfold gameOverCheck
  by_cases h1 : st.lives ≤ 0
  · rw [if_pos ⟨h1, hplay⟩]
    by_cases h2 : st.shakeIntensity < 1
    · rw [if_pos h2]
      simp [endGame, h1, h2]
    · rw [if_neg h2, hplay]
      simp [h2]
  · rw [if_neg (by tauto), hplay]
    simp [h1]

theorem playing_to_gameover_iff_witness :
    ((update oracle0 (1/60) 1280 720 0 c6State).gameState = GState.GAMEOVER ↔
      c6State.lives ≤ 0 ∧ c6State.shakeIntensity < 1) :=
  playing_to_gameover_iff oracle0 (1/60) 1280 720 0 c6State (by rfl)

/-- Helper: the trail-feeding step touches only the trail and the cached
hand position. -/
theorem pushTrail_preserves (inp : Option TrailPoint) (st : GameState) :
    (pushTrail inp st).score = st.score ∧
    (pushTrail inp st).stats = st.stats ∧
    (pushTrail inp st).currentCombo = st.currentCombo ∧
    (pushTrail inp st).comboTimer = st.comboTimer ∧
    (pushTrail inp st).gameState = st.gameState ∧
    (pushTrail inp st).particles = st.particles ∧
    (pushTrail inp st).floatingTexts = st.floatingTexts := by
  cases inp
  · simp only [pushTrail]
    split_ifs <;> exact ⟨rfl, rfl, rfl, rfl, rfl, rfl, rfl⟩
  · exact ⟨rfl, rfl, rfl, rfl, rfl, rfl, rfl⟩

/-- Helper: a tick never changes the score, the stats record, the combo
counter, the combo timer, or the lives. -/
theorem update_preserves_scalars (o : Oracle) (dt width height : ℚ) (now : ℤ)
    (st : GameState) :
    (update o dt width height now st).score = st.score ∧
    (update o dt width height now st).stats = st.stats ∧
    (update o dt width height now st).currentCombo = st.currentCombo ∧
    (update o dt width height now st).comboTimer = st.comboTimer ∧
    (update o dt width height now st).lives = st.lives := by
  have hg := gameOverCheck_scalars o st
  have hs := shakeDecay_scalars o dt (gameOverCheck o st)
  refine ⟨?_, ?_, ?_, ?_, ?_⟩
  · calc (update o dt width height now st).score
        = (shakeDecay o dt (gameOverCheck o st)).score := rfl
      _ = st.score := by rw [hs.1, hg.1]
  · calc (update o dt width height now st).stats
        = (shakeDecay o dt (gameOverCheck o st)).stats := rfl
      _ = st.stats := by rw [hs.2.1, hg.2.1]
  · calc (update o dt width height now st).currentCombo
        = (shakeDecay o dt (gameOverCheck o st)).currentCombo := rfl
      _ = st.currentCombo := by rw [hs.2.2.1, hg.2.2.1]
  · calc (update o dt width height now st).comboTimer
        = (shakeDecay o dt (gameOverCheck o st)).comboTimer := rfl
      _ = st.comboTimer := by rw [hs.2.2.2.1, hg.2.2.2.1]
  · calc (update o dt width height now st).lives
        = (shakeDecay o dt (gameOverCheck o st)).lives := rfl
      _ = st.lives := by rw [hs.2.2.2.2.1, hg.2.2.2.2.1]

/-- Helper: a tick started outside PLAYING cannot change the session
state (the game-over transition is guarded on PLAYING). -/
theorem update_gameState_of_not_playing (o : Oracle) (dt width height : ℚ)
    (now : ℤ) (st : GameState) (h : ¬ st.gameState = GState.PLAYING) :
    (update o dt width height now st).gameState = st.gameState := by
  rw [update_gameState_eq, gameOverCheck_eq_of_not_playing o st h]

/-- Helper: the frame dispatch in MENU or GAMEOVER is the trail feed
followed by the full update exactly when cosmetic particles or texts
remain. -/
theorem frameStep_not_playing (o : Oracle) (dt width height : ℚ) (now : ℤ)
    (inp : Option TrailPoint) (st : GameState)
    (hst : st.gameState = GState.MENU ∨ st.gameState = GState.GAMEOVER) :
    frameStep o dt width height now inp st =
      (if (pushTrail inp st).particles.length ≠ 0 ∨
          (pushTrail inp st).floatingTexts.length ≠ 0 then
        update o dt width height now (pushTrail inp st)
      else pushTrail inp st) := by
  rcases hst with h | h <;> simp only [frameStep, h]

/-- Claim C5 (amended): while the session is in MENU or GAMEOVER no
collision test runs — the score, stats, combo counter, combo timer and
session state are untouched by the frame; when the particle and
floating-text collections are both empty the frame performs only the
trail-feeding step; but while any cosmetic particle or floating text
remains, the FULL update step runs — including the spawn timer, so a new
falling entity CAN be spawned in these states. -/
theorem menu_gameover_frame (o : Oracle) (dt width height : ℚ) (now : ℤ)
    (inp : Option TrailPoint) (st : GameState)
    (hst : st.gameState = GState.MENU ∨ st.gameState = GState.GAMEOVER) :
    (frameStep o dt width height now inp st).score = st.score ∧
    (frameStep o dt width height now inp st).stats = st.stats ∧
    (frameStep o dt width height now inp st).currentCombo = st.currentCombo ∧
    (frameStep o dt width height now inp st).comboTimer = st.comboTimer ∧
    (frameStep o dt width height now inp st).gameState = st.gameState ∧
    ((pushTrail inp st).particles.length = 0 ∧
        (pushTrail inp st).floatingTexts.length = 0 →
      frameStep o dt width height now inp st = pushTrail inp st) ∧
    (¬ ((pushTrail inp st).particles.length = 0 ∧
        (pushTrail inp st).floatingTexts.length = 0) →
      frameStep o dt width height now inp st =
        update o dt width height now (pushTrail inp st)) := by
  have hpp := pushTrail_preserves inp st
  have hup := update_preserves_scalars o dt width height now (pushTrail inp st)
  have hnp : ¬ (pushTrail inp st).gameState = GState.PLAYING := by
    rw [hpp.2.2.2.2.1]
    rcases hst with h | h <;> rw [h] <;> intro hc <;> cases hc
  have hug := update_gameState_of_not_playing o dt width height now
    (pushTrail inp st) hnp
  have hframe := frameStep_not_playing o dt width height now inp st hst
  by_cases hc : (pushTrail inp st).particles.length ≠ 0 ∨
      (pushTrail inp st).floatingTexts.length ≠ 0
  · rw [hframe, if_pos hc]
    refine ⟨?_, ?_, ?_, ?_, ?_, ?_, ?_⟩
    · rw [hup.1, hpp.1]
    · rw [hup.2.1, hpp.2.1]
    · rw [hup.2.2.1, hpp.2.2.1]
    · rw [hup.2.2.2.1, hpp.2.2.2.1]
    · rw [hug, hpp.2.2.2.2.1]
    · intro hempty
      exact absurd hc (by tauto)
    · intro _
      rfl
  · rw [hframe, if_neg hc]
    refine ⟨hpp.1, hpp.2.1, hpp.2.2.1, hpp.2.2.2.1, hpp.2.2.2.2.1, fun _ => rfl, ?_⟩
    intro hne
    exact absurd (by tauto : (pushTrail inp st).particles.length = 0 ∧
      (pushTrail inp st).floatingTexts.length = 0) hne

def c5Particle : Particle :=
  { id := "p5", type := .JUICE, x := 10, y := 10, vx := 0, vy := 0,
    color := "#fff", life := 1, decay := 1/50, size := 5, gravity := 1/2,
    rotation := 0, rotationSpeed := 0, stuck := false, scale := 1 }

def c5State : GameState :=
  { entities := [], particles := [c5Particle], floatingTexts := [], trail := [],
    lastHandPos := none, score := 0, lives := 0, stats := zeroStats,
    shakeIntensity := 0, currentCombo := 0, comboTimer := 0, spawnTimer := 2000,
    gameState := .GAMEOVER, finalStats := some zeroStats, gameOverQuote := "" }

/-- Claim C5 (counterexample): in GAMEOVER with one leftover cosmetic
particle and an elapsed spawn timer, the frame runs the full update and
spawns a new falling entity — refuting "no new falling entity is ever
spawned" in MENU/GAMEOVER. -/
theorem gameover_frame_spawns_entity :
    c5State.gameState = GState.GAMEOVER ∧
    c5State.entities = [] ∧
    (frameStep oracle0 (1/60) 1280 1080 0 none c5State).entities.length = 1 := by
  refine ⟨rfl, rfl, ?_⟩
  have hpush : pushTrail none c5State = c5State := by
    simp [pushTrail, c5State]
  rw [frameStep_not_playing oracle0 (1/60) 1280 1080 0 none c5State (Or.inr rfl),
    hpush, if_pos (Or.inl (by simp [c5State]))]
  have hgo : gameOverCheck oracle0 c5State = c5State :=
    gameOverCheck_eq_of_not_playing oracle0 c5State (by simp [c5State])
  have hsh : shakeDecay oracle0 (1/60) c5State = c5State :=
    shakeDecay_eq_of_nonpos oracle0 (1/60) c5State (by norm_num [c5State])
  have hupd : update oracle0 (1/60) 1280 1080 0 c5State =
      simStep oracle0 (1/60) 1280 1080 0 c5State := by
    unfold update
    rw [hgo, hsh]
  rw [hupd]
  norm_num [simStep, c5State, c5Particle, spawnEntity, stepEntity, stepParticle,
    stepFloatingText, oracle0, INITIAL_DIFFICULTY, HARD_DIFFICULTY, FRUIT_TYPES,
    FRUIT_RADIUS, BOMB_TYPE, SLICE_LIFETIME, List.getD]

theorem menu_gameover_frame_witness :
    (frameStep oracle0 (1/60) 1280 1080 0 none c5State).score = c5State.score ∧
    (frameStep oracle0 (1/60) 1280 1080 0 none c5State).stats = c5State.stats ∧
    (frameStep oracle0 (1/60) 1280 1080 0 none c5State).currentCombo =
      c5State.currentCombo ∧
    (frameStep oracle0 (1/60) 1280 1080 0 none c5State).comboTimer =
      c5State.comboTimer ∧
    (frameStep oracle0 (1/60) 1280 1080 0 none c5State).gameState =
      c5State.gameState :=
  (fun h => ⟨h.1, h.2.1, h.2.2.1, h.2.2.2.1, h.2.2.2.2.1⟩)
    (menu_gameover_frame oracle0 (1/60) 1280 1080 0 none c5State (Or.inr (by rfl)))

/-- Claim C9: the feedback request never throws: a missing credential
yields the fixed silent-dojo fallback before any call is made, a thrown
error from the text-generation call is caught and mapped to the fixed
stumble fallback, and an absent or empty response text is mapped to the
fixed focus fallback — the function is total and returns a plain string
for every stats snapshot and outcome. -/
theorem senseiFeedback_fallbacks (stats : GameStats) (outcome : ApiOutcome) :
    generateSenseiFeedback stats false outcome =
      "The Dojo is silent (API Key missing)." ∧
    generateSenseiFeedback stats true ApiOutcome.failure =
      "Even masters stumble. Try again." ∧
    generateSenseiFeedback stats true (ApiOutcome.success none) =
      "Focus your mind, and the fruit will reveal its path." ∧
    generateSenseiFeedback stats true (ApiOutcome.success (some "")) =
      "Focus your mind, and the fruit will reveal its path." ∧
    (∀ s : String, generateSenseiFeedback stats true (ApiOutcome.success (some s)) =
      (if s = "" then "Focus your mind, and the fruit will reveal its path." else s)) := by
  refine ⟨rfl, rfl, rfl, by simp [generateSenseiFeedback], ?_⟩
  intro s
  rfl

end ZenSlice
